import Mathlib

/-!
Verification of the Smart Librarian single-page client: session/conversation
continuity and the message-exchange protocol.  The definitions below are a
shallow embedding of the JavaScript sources:

* `frontend/src/components/MessageInput.jsx` — `handleSend`, rendered input
* `frontend/src/api/chat.js` — `sendChat`
* `frontend/src/pages/Chat.jsx` — `ChatPage` state and `onSend`
* `src/api/auth.js` — `login`, `me`, `logout`
* `src/auth/AuthContext.jsx` — `refresh`, session state
* `src/auth/ProtectedRoute.jsx` — the route guard

`localStorage` is modelled as a total map from keys to optional string
values; the network is modelled by passing each call's outcome in as data
(success payload or error information), since the backend is an external
collaborator.
-/

namespace SmartLibrarian

/-- JS `String.prototype.trim`: strips whitespace from both ends.
Defined structurally over the character list so the kernel can evaluate it. -/
def jsTrim (s : String) : String :=
  String.mk (((s.data.dropWhile Char.isWhitespace).reverse.dropWhile Char.isWhitespace).reverse)

/-- A chat transcript entry's role: `"user"` or `"assistant"`. -/
inductive Role where
  | user
  | assistant
deriving DecidableEq, Repr

/-- One transcript entry: `{ role, content }`. -/
structure Message where
  role : Role
  content : String
deriving DecidableEq, Repr

/-- The profile returned by `GET /auth/me`:
`{ id, email, name?, role, created_at }`. -/
structure UserProfile where
  id : Nat
  email : String
  name : Option String
  role : String
  created_at : String
deriving DecidableEq, Repr

/-- Model of `localStorage`: a total map from string keys to optional string values. -/
def Store : Type := String → Option String

/-- JS `localStorage.getItem(k)`; `none` models JS `null`. -/
def Store.getItem (s : Store) (k : String) : Option String := s k

/-- JS `localStorage.setItem(k, v)`. -/
def Store.setItem (s : Store) (k v : String) : Store :=
  fun k2 => if k2 = k then some v else s k2

/-- JS `localStorage.removeItem(k)`. -/
def Store.removeItem (s : Store) (k : String) : Store :=
  fun k2 => if k2 = k then none else s k2

/-- An empty `localStorage`. -/
def Store.empty : Store := fun _ => none

/-- The body returned by `POST /auth/login`: `{ access_token, ... }`, extra
fields kept opaquely. -/
structure LoginResponse where
  access_token : String
  rest : List (String × String)
deriving DecidableEq, Repr

/-- Embeds `login(email, password)` from `src/api/auth.js`, restricted to its effect
on client state once the backend has answered `data`: it stores
`data.access_token` under the `"access_token"` key and returns `data`. -/
def login (store : Store) (data : LoginResponse) : Store × LoginResponse :=
  (store.setItem "access_token" data.access_token, data)

/-- Embeds `me()` from `src/api/auth.js`: `GET /auth/me` carrying the persisted
bearer token.  `backend` maps the presented token to the identity it
recognises (`none` = the call fails: missing/invalid token). -/
def me (backend : Option String → Option UserProfile) (store : Store) :
    Option UserProfile :=
  backend (store.getItem "access_token")

/-- Embeds `logout()` from `src/api/auth.js`: purely local, removes the
`"access_token"` key; no backend interaction (its type takes no backend). -/
def logout (store : Store) : Store :=
  store.removeItem "access_token"

/-- The Session Context state `{ user, loading }` from
`src/auth/AuthContext.jsx`. -/
structure SessionState where
  user : Option UserProfile
  loading : Bool
deriving DecidableEq, Repr

/-- Initial session state: `useState(null)` / `useState(true)`. -/
def initialSession : SessionState := { user := none, loading := true }

/-- Embeds `refresh()` from `AuthContext.jsx` once its `me()` call has settled with
`result` (`some u` = success, `none` = any failure):
`try { setUser(await me()) } catch { setUser(null) } finally { setLoading(false) }`.
The new state does not depend on the previous one. -/
def refresh (result : Option UserProfile) (_st : SessionState) : SessionState :=
  { user := result, loading := false }

/-- Session states reachable in `AuthContext.jsx`: the initial state, closed
under `refresh` settling with any outcome. -/
inductive SessionReachable : SessionState → Prop
  | init : SessionReachable initialSession
  | step (r : Option UserProfile) (st : SessionState) :
      SessionReachable st → SessionReachable (refresh r st)

/-- What `ProtectedRoute` renders. -/
inductive GuardRender where
  | waiting
  | redirect (target : String) (replace : Bool)
  | content
deriving DecidableEq, Repr

/-- Embeds `ProtectedRoute` from `src/auth/ProtectedRoute.jsx`:
`if (loading) return <div>Loading...</div>;`
`if (!user) return <Navigate to="/login" replace />;`
`return children;` -/
def ProtectedRoute (session : SessionState) : GuardRender :=
  if session.loading then .waiting
  else
    match session.user with
    | none => .redirect "/login" true
    | some _ => .content

/-- JS truthiness of an optional string: `undefined`/`null` and `""` are
falsy, every other string is truthy. -/
def truthyOptStr : Option String → Bool
  | none => false
  | some s => !(s == "")

/-- The JSON body `sendChat` posts to `POST /chat`:
`{ message, ...(conversationId ? {conversation_id} : {}), ...(where ? {where} : {}) }`. -/
structure ChatPayload where
  message : String
  conversation_id : Option String
  whereField : Option (List (String × String))
deriving DecidableEq, Repr

/-- Embeds `sendChat({ message, conversationId, where })` from
`frontend/src/api/chat.js`, up to the network boundary: the local validation
`if (!message || !message.trim()) throw new Error("Message is required")`
and the payload it would post.  `.error` models the thrown validation error,
before any network request exists. -/
def sendChat (message : Option String) (conversationId : Option String)
    (whereField : Option (List (String × String))) : Except String ChatPayload :=
  match message with
  | none => .error "Message is required"
  | some m =>
    if jsTrim m = "" then .error "Message is required"
    else
      .ok { message := m
            conversation_id := if truthyOptStr conversationId then conversationId else none
            whereField := whereField }

/-- The failure information `onSend`'s catch block inspects:
`e?.response?.data?.detail` and `e?.message` (absent = `none`). -/
structure ErrorInfo where
  responseDetail : Option String
  message : Option String
deriving DecidableEq, Repr

/-- JS `a || b` on an optional string against a string default:
`none` and `some ""` are falsy and yield the default. -/
def jsOrStr : Option String → String → String
  | none, d => d
  | some s, d => if s = "" then d else s

/-- Embeds `const serverDetail = e?.response?.data?.detail || e?.message || "Chat error";`
from `Chat.jsx`. -/
def serverDetail (e : ErrorInfo) : String :=
  jsOrStr e.responseDetail (jsOrStr e.message "Chat error")

/-- How one chat exchange settles: the backend's `{ conversation_id, answer }`
on success, or the caught error's information on failure. -/
inductive ChatOutcome where
  | ok (conversation_id : String) (answer : String)
  | err (e : ErrorInfo)
deriving DecidableEq, Repr

/-- Embeds the `ChatPage` state from `frontend/src/pages/Chat.jsx`: `convId`, `msgs`,
`loading`, together with the `localStorage` the page reads and writes. -/
structure ChatState where
  convId : Option String
  msgs : List Message
  loading : Bool
  store : Store

/-- The seeded transcript: one synthetic assistant greeting. -/
def initialMsgs : List Message :=
  [{ role := .assistant, content := "Hey! Tell me what kind of book you want 📚✨" }]

/-- Initial `ChatPage` state over a given `localStorage`:
`convId = undefined`, greeting transcript, `loading = false`. -/
def initialChat (store : Store) : ChatState :=
  { convId := none, msgs := initialMsgs, loading := false, store := store }

/-- The mount effect
`const savedConvId = localStorage.getItem("convId"); if (savedConvId) setConvId(savedConvId);`
(JS truthiness: `null` and `""` leave `convId` untouched). -/
def loadConvId (st : ChatState) : ChatState :=
  match st.store.getItem "convId" with
  | some s => if s = "" then st else { st with convId := some s }
  | none => st

/-- The first phase of `onSend(text)`, before the network call settles:
optimistic append of `{ role: "user", content: text }` and `setLoading(true)`. -/
def onSendStart (text : String) (st : ChatState) : ChatState :=
  { st with
    msgs := st.msgs ++ [{ role := .user, content := text }]
    loading := true }

/-- The request `onSend` dispatches through the Chat Client:
`sendChat({ message: text, conversationId: convId })` (no filter). -/
def chatRequest (st : ChatState) (text : String) : Except String ChatPayload :=
  sendChat (some text) st.convId none

/-- The second phase of `onSend`, once the exchange settles.  Success:
`setConvId(res.conversation_id); localStorage.setItem("convId", res.conversation_id);`
then append the assistant answer.  Failure: append
`{ role: "assistant", content: "⚠️ " + serverDetail }`.  Both end in the
`finally` block's `setLoading(false)`. -/
def onSendSettle (outcome : ChatOutcome) (st : ChatState) : ChatState :=
  match outcome with
  | .ok cid ans =>
    { st with
      convId := some cid
      store := st.store.setItem "convId" cid
      msgs := st.msgs ++ [{ role := .assistant, content := ans }]
      loading := false }
  | .err e =>
    { st with
      msgs := st.msgs ++ [{ role := .assistant, content := "⚠️ " ++ serverDetail e }]
      loading := false }

/-- A whole `onSend(text)` turn whose exchange settles with `outcome`. -/
def onSend (text : String) (outcome : ChatOutcome) (st : ChatState) : ChatState :=
  onSendSettle outcome (onSendStart text st)

/-- Embeds `handleSend` from `MessageInput.jsx`:
`const v = value.trim(); if (!v) return; onSend(v); setValue("");`
Returns the message handed to `onSend` (if any) and the input's new value. -/
def handleSend (value : String) : Option String × String :=
  let v := jsTrim value
  if v = "" then (none, value) else (some v, "")

/-- The input element `MessageInput` renders.  The component destructures only
`{ onSend }` from its props, so the `disabled={loading}` prop `ChatPage`
passes is ignored and the rendered element carries no `disabled` attribute. -/
structure InputRender where
  value : String
  disabled : Bool
deriving DecidableEq, Repr

/-- Render of `MessageInput` as a function of its state and the `disabled`
prop the parent passes: the prop is unused (`MessageInput({ onSend })`),
so the element is never disabled. -/
def renderMessageInput (value : String) (_disabledProp : Bool) : InputRender :=
  { value := value, disabled := false }

/-- One submit through the chat view: `handleSend` guards and trims, and if a
message is dispatched the `onSend` turn runs, settling with `outcome`.
Returns the new page state and the input's new value. -/
def submit (value : String) (outcome : ChatOutcome) (st : ChatState) :
    ChatState × String :=
  match handleSend value with
  | (none, v) => (st, v)
  | (some text, v) => (onSend text outcome st, v)

/-- Number of transcript entries with role `r`. -/
def countRole (r : Role) (msgs : List Message) : Nat :=
  (msgs.filter (fun m => m.role == r)).length

/-- A demonstration profile used by concrete witnesses. -/
def demoProfile : UserProfile :=
  { id := 1, email := "u@x.com", name := none, role := "user", created_at := "2024-01-01" }

/-- A demonstration backend that recognises exactly the token `"tok1"`. -/
def demoBackend : Option String → Option UserProfile :=
  fun t => if t = some "tok1" then some demoProfile else none

/-- In every reachable session state, `loading = true` implies `user = none`:
`user` is only ever set by `refresh`, which also clears `loading`. -/
theorem sessionReachable_loading_user (st : SessionState) (h : SessionReachable st) :
    st.loading = true → st.user = none := by
  induction h with
  | init => intro _; rfl
  | step r st' _ _ => intro hl; simp [refresh] at hl

/-- C5: `refresh()` sets `user` to the identity check's result (the profile on
success, `null` on any failure), always clears `loading` to `false`, and is
idempotent: a second `refresh` against the unchanged backend identity yields
the same final state. -/
theorem refresh_sets_user_clears_loading (r : Option UserProfile) (st : SessionState) :
    (refresh r st).user = r ∧ (refresh r st).loading = false ∧
    refresh r (refresh r st) = refresh r st :=
  ⟨rfl, rfl, rfl⟩

/-- C10: a failed chat turn leaves the held conversation identifier and the
whole `localStorage` (hence the persisted `"convId"` copy) unchanged, and
still clears the busy flag. -/
theorem failed_turn_preserves_conversation (text : String) (e : ErrorInfo) (st : ChatState) :
    (onSend text (.err e) st).convId = st.convId ∧
    (onSend text (.err e) st).store = st.store ∧
    (onSend text (.err e) st).loading = false :=
  ⟨rfl, rfl, rfl⟩

/-- C9: `logout()` deletes exactly the `"access_token"` key — every other key,
in particular the persisted `"convId"`, is unchanged — so a later chat mount
over the logged-out storage resumes the same conversation identifier. -/
theorem logout_removes_only_token (store : Store) :
    (logout store).getItem "access_token" = none ∧
    (∀ k, k ≠ "access_token" → (logout store).getItem k = store.getItem k) ∧
    (loadConvId (initialChat (logout store))).convId
      = (loadConvId (initialChat store)).convId := by
  refine ⟨?_, ?_, ?_⟩
  · simp [logout, Store.removeItem, Store.getItem]
  · intro k hk
    simp [logout, Store.removeItem, Store.getItem, hk]
  · have h : (initialChat (logout store)).store.getItem "convId"
        = (initialChat store).store.getItem "convId" := by
      simp [initialChat, logout, Store.removeItem, Store.getItem]
    unfold loadConvId
    rw [h]
    cases hc : (initialChat store).store.getItem "convId" with
    | none => rfl
    | some s =>
      by_cases hs : s = "" <;> simp [hs, initialChat]

/-- Witness for C9 at a concrete storage holding both keys. -/
theorem logout_removes_only_token_w :
    (logout ((Store.empty.setItem "convId" "abc123").setItem "access_token" "tok")).getItem
      "convId" = some "abc123" := by
  have h := (logout_removes_only_token
    ((Store.empty.setItem "convId" "abc123").setItem "access_token" "tok")).2.1
    "convId" (by decide)
  rw [h]; rfl

/-- C2 (code-bug evidence): `ChatPage` passes `disabled={loading}` but
`MessageInput` destructures only `{ onSend }`, so the rendered input is never
disabled; with a turn already pending (`loading = true` after
`onSendStart "first"`), a second submit still dispatches and appends a whole
extra turn instead of being blocked. -/
theorem busy_submit_still_dispatches :
    (renderMessageInput "second one" true).disabled = false ∧
    (onSendStart "first" (initialChat Store.empty)).loading = true ∧
    (submit "second one" (ChatOutcome.err ⟨none, none⟩)
        (onSendStart "first" (initialChat Store.empty))).1.msgs.length
      = (onSendStart "first" (initialChat Store.empty)).msgs.length + 2 :=
  ⟨rfl, rfl, rfl⟩

/-- C1: for every input whose trim is non-empty, the submit hands the trimmed
text to `onSend`, the user entry is appended immediately by the pre-settle
phase, and — whichever way the exchange settles — the finished submit has
appended exactly one user entry and exactly one assistant entry. -/
theorem submit_appends_one_user_one_assistant
    (value : String) (outcome : ChatOutcome) (st : ChatState)
    (h : jsTrim value ≠ "") :
    handleSend value = (some (jsTrim value), "") ∧
    (onSendStart (jsTrim value) st).msgs
      = st.msgs ++ [{ role := .user, content := jsTrim value }] ∧
    countRole .user (submit value outcome st).1.msgs = countRole .user st.msgs + 1 ∧
    countRole .assistant (submit value outcome st).1.msgs
      = countRole .assistant st.msgs + 1 := by
  refine ⟨by simp [handleSend, h], rfl, ?_, ?_⟩ <;>
  · cases outcome <;>
      simp [submit, handleSend, h, onSend, onSendStart, onSendSettle, countRole,
        List.filter_append]

/-- Witness for C1 at the input `"hello"` on the failure path. -/
theorem submit_appends_one_user_one_assistant_w :
    handleSend "hello" = (some (jsTrim "hello"), "") ∧
    (onSendStart (jsTrim "hello") (initialChat Store.empty)).msgs
      = (initialChat Store.empty).msgs ++ [{ role := .user, content := jsTrim "hello" }] ∧
    countRole .user (submit "hello" (ChatOutcome.err ⟨none, none⟩)
        (initialChat Store.empty)).1.msgs
      = countRole .user (initialChat Store.empty).msgs + 1 ∧
    countRole .assistant (submit "hello" (ChatOutcome.err ⟨none, none⟩)
        (initialChat Store.empty)).1.msgs
      = countRole .assistant (initialChat Store.empty).msgs + 1 :=
  submit_appends_one_user_one_assistant "hello" (ChatOutcome.err ⟨none, none⟩)
    (initialChat Store.empty) (by decide)

/-- C3: a failed turn appends exactly one assistant entry reading
`"⚠️ " ++ reason` after the preserved optimistic user entry, where the reason
prefers a truthy server detail, then a truthy transport message, then the
`"Chat error"` fallback; with detail `"conversation not found"` the appended
entry reads exactly `"⚠️ conversation not found"`. -/
theorem failure_appends_warning (text : String) (e : ErrorInfo) (st : ChatState) :
    (onSend text (.err e) st).msgs
      = st.msgs ++ [{ role := .user, content := text },
                    { role := .assistant, content := "⚠️ " ++ serverDetail e }] ∧
    (∀ d, e.responseDetail = some d → d ≠ "" → serverDetail e = d) ∧
    (∀ m, (e.responseDetail = none ∨ e.responseDetail = some "") →
      e.message = some m → m ≠ "" → serverDetail e = m) ∧
    ((e.responseDetail = none ∨ e.responseDetail = some "") →
      (e.message = none ∨ e.message = some "") → serverDetail e = "Chat error") ∧
    (e.responseDetail = some "conversation not found" →
      (onSend text (.err e) st).msgs.getLast?
        = some { role := .assistant, content := "⚠️ conversation not found" }) := by
  obtain ⟨rd, msg⟩ := e
  refine ⟨by simp [onSend, onSendStart, onSendSettle], ?_, ?_, ?_, ?_⟩
  · rintro d rfl hd
    simp [serverDetail, jsOrStr, hd]
  · rintro m hrd rfl hm
    rcases hrd with rfl | rfl <;> simp [serverDetail, jsOrStr, hm]
  · rintro hrd hmsg
    rcases hrd with rfl | rfl <;> rcases hmsg with rfl | rfl <;>
      simp [serverDetail, jsOrStr]
  · rintro rfl
    simp [onSend, onSendStart, onSendSettle, serverDetail, jsOrStr]

/-- Witness for C3: the backend detail `"conversation not found"` produces the
exact transcript entry the spec demands. -/
theorem failure_appends_warning_w :
    (onSend "x" (ChatOutcome.err ⟨some "conversation not found", none⟩)
        (initialChat Store.empty)).msgs.getLast?
      = some { role := Role.assistant, content := "⚠️ conversation not found" } :=
  (failure_appends_warning "x" ⟨some "conversation not found", none⟩
    (initialChat Store.empty)).2.2.2.2 rfl

/-- C6: an empty-after-trim input makes the submit a no-op (nothing dispatched,
state and input value unchanged), and `sendChat` with a missing or
empty-after-trim message fails locally with the validation error, before any
network request exists. -/
theorem empty_submit_noop (value : String) (outcome : ChatOutcome) (st : ChatState)
    (h : jsTrim value = "") :
    handleSend value = (none, value) ∧
    submit value outcome st = (st, value) ∧
    sendChat none st.convId none = .error "Message is required" ∧
    (∀ m, jsTrim m = "" → sendChat (some m) st.convId none = .error "Message is required") := by
  refine ⟨by simp [handleSend, h], by simp [submit, handleSend, h], rfl, ?_⟩
  intro m hm
  simp [sendChat, hm]

/-- Witness for C6 at the whitespace-only input `"   "`. -/
theorem empty_submit_noop_w :
    handleSend "   " = (none, "   ") ∧
    submit "   " (ChatOutcome.err ⟨none, none⟩) (initialChat Store.empty)
      = (initialChat Store.empty, "   ") ∧
    sendChat none (initialChat Store.empty).convId none = .error "Message is required" ∧
    (∀ m, jsTrim m = "" →
      sendChat (some m) (initialChat Store.empty).convId none = .error "Message is required") :=
  empty_submit_noop "   " (ChatOutcome.err ⟨none, none⟩) (initialChat Store.empty) (by decide)

/-- C4: a successful exchange sets the held identifier to the response's
`conversation_id` and persists it under `"convId"`; a reload over that storage
loads it back into local state, and the next chat request carries it as
`conversation_id` — in general the payload includes the held identifier
exactly when it is truthy. -/
theorem success_persists_and_resumes
    (text ans cid : String) (st : ChatState) (hcid : cid ≠ "")
    (next : String) (hnext : jsTrim next ≠ "") :
    (onSend text (.ok cid ans) st).convId = some cid ∧
    (onSend text (.ok cid ans) st).store.getItem "convId" = some cid ∧
    (loadConvId (initialChat (onSend text (.ok cid ans) st).store)).convId = some cid ∧
    chatRequest (loadConvId (initialChat (onSend text (.ok cid ans) st).store)) next
      = .ok { message := next, conversation_id := some cid, whereField := none } ∧
    (∀ s : ChatState, chatRequest s next
      = .ok { message := next,
              conversation_id := if truthyOptStr s.convId then s.convId else none,
              whereField := none }) := by
  have hstore : (onSend text (.ok cid ans) st).store.getItem "convId" = some cid := by
    simp [onSend, onSendStart, onSendSettle, Store.setItem, Store.getItem]
  have hload : (loadConvId (initialChat (onSend text (.ok cid ans) st).store)).convId
      = some cid := by
    unfold loadConvId
    simp only [initialChat]
    rw [hstore]
    simp [hcid]
  have hreq : ∀ s : ChatState, chatRequest s next
      = .ok { message := next,
              conversation_id := if truthyOptStr s.convId then s.convId else none,
              whereField := none } := by
    intro s
    simp [chatRequest, sendChat, hnext]
  refine ⟨rfl, hstore, hload, ?_, hreq⟩
  rw [hreq]
  rw [hload]
  simp [truthyOptStr, hcid]

/-- Witness for C4: after a success returning `"abc123"`, a reload resumes the
identifier `"abc123"` into local state. -/
theorem success_persists_and_resumes_w :
    (loadConvId (initialChat (onSend "hi" (ChatOutcome.ok "abc123" "Sure!")
        (initialChat Store.empty)).store)).convId = some "abc123" :=
  (success_persists_and_resumes "hi" "Sure!" "abc123" (initialChat Store.empty)
    (by decide) "more" (by decide)).2.2.1

/-- C7: `login` persists the returned `access_token` under the token key as a
side effect and returns the full response body unchanged; an immediately
subsequent `me()` presents exactly that token, so it succeeds whenever the
backend recognises the token it just issued. -/
theorem login_persists_token_then_me
    (store : Store) (data : LoginResponse)
    (backend : Option String → Option UserProfile) (p : UserProfile)
    (hb : backend (some data.access_token) = some p) :
    (login store data).1.getItem "access_token" = some data.access_token ∧
    (login store data).2 = data ∧
    me backend (login store data).1 = some p := by
  refine ⟨by simp [login, Store.setItem, Store.getItem], rfl, ?_⟩
  simp [me, login, Store.setItem, Store.getItem, hb]

/-- Witness for C7: after logging in with a backend that issued `"tok1"`, an
immediate `me()` succeeds with the profile. -/
theorem login_persists_token_then_me_w :
    me demoBackend (login Store.empty ⟨"tok1", []⟩).1 = some demoProfile :=
  (login_persists_token_then_me Store.empty ⟨"tok1", []⟩ demoBackend demoProfile rfl).2.2

/-- C8: over every reachable session state the route guard is total with three
cases — while loading it renders the waiting indicator; once loading has
cleared with no user it redirects to `"/login"` with history replacement; and
whenever a user is present (which in a reachable state entails loading has
cleared) it renders the guarded content. -/
theorem protected_route_cases (st : SessionState) (h : SessionReachable st) :
    (st.loading = true → ProtectedRoute st = .waiting) ∧
    (st.loading = false → st.user = none → ProtectedRoute st = .redirect "/login" true) ∧
    (∀ u, st.user = some u → ProtectedRoute st = .content) := by
  refine ⟨?_, ?_, ?_⟩
  · intro hl
    simp [ProtectedRoute, hl]
  · intro hl hu
    simp [ProtectedRoute, hl, hu]
  · intro u hu
    have hl : st.loading = false := by
      cases hb : st.loading
      · rfl
      · have hnone := sessionReachable_loading_user st h hb
        rw [hu] at hnone
        cases hnone
    simp [ProtectedRoute, hl, hu]

/-- Witness for C8: after a successful startup `refresh`, the guard admits the
guarded content. -/
theorem protected_route_cases_w :
    ProtectedRoute (refresh (some demoProfile) initialSession) = GuardRender.content :=
  (protected_route_cases (refresh (some demoProfile) initialSession)
    (SessionReachable.step (some demoProfile) initialSession SessionReachable.init)).2.2
    demoProfile rfl

end SmartLibrarian
